import Mathlib

/-
Verification of the vehicle-dynamics core of the `car` repository.

The per-tick physics (the useFrame body of the Car component) and its helper
functions are embedded shallowly over the rational numbers: JavaScript number
arithmetic is modelled exactly by rationals wherever the code stays finite,
and engine-reported quantities that may be non-finite (NaN or an infinity)
are modelled as Option values, with none standing for any non-finite value;
Number.isFinite corresponds to Option.isSome.  Transcendental library calls
(Math.tan, Math.atan2, Math.sqrt, Math.PI) are taken as parameters collected
in an Ops structure, since the claims under study never depend on their
exact values, only occasionally on the sign behaviour of Math.sqrt.
-/

namespace Car

/-! ## Vehicle constants (src/components/canvas/Car, Car component) -/

def CAR_MASS : ℚ := 600
def WHEELBASE : ℚ := 2.7
def TRACK_WIDTH : ℚ := 1.9
def CG_HEIGHT : ℚ := 0.35
def WEIGHT_DIST_FRONT : ℚ := 0.47
def BASE_MAX_SPEED : ℚ := 310 / 3.6
def BASE_MAX_REVERSE_SPEED : ℚ := 40 / 3.6
def ENGINE_FORCE_LOW : ℚ := 18000
def ENGINE_FORCE_MID : ℚ := 12000
def ENGINE_FORCE_HIGH : ℚ := 7000
def BASE_BRAKE_FORCE : ℚ := 35000
def ENGINE_BRAKE : ℚ := 2500
def BASE_DRAG_COEFFICIENT : ℚ := 0.35
def FRONTAL_AREA : ℚ := 2.0
def AIR_DENSITY : ℚ := 1.225
def BASE_DOWNFORCE_COEFFICIENT : ℚ := 2.8
def BASE_TIRE_GRIP_COEFFICIENT : ℚ := 1.7
def OPTIMAL_SLIP_ANGLE : ℚ := 8
def SLIP_ANGLE_FALLOFF : ℚ := 0.03
def TIRE_LOAD_SENSITIVITY : ℚ := 0.015

/-- Base maximum steer angle, 22 degrees in radians; Math.PI is abstracted
as the parameter pi. -/
def BASE_MAX_STEER_ANGLE (pi : ℚ) : ℚ := 22 * (pi / 180)

/-- Base minimum steer angle, 4 degrees in radians; Math.PI is abstracted
as the parameter pi. -/
def BASE_MIN_STEER_ANGLE (pi : ℚ) : ℚ := 4 * (pi / 180)

def BASE_STEER_SPEED : ℚ := 1.8
def STEER_RETURN_SPEED : ℚ := 3.0
def WEIGHT_TRANSFER_LONG : ℚ := 0.35
def WEIGHT_TRANSFER_LAT : ℚ := 0.4

/-- Speed conversion constant from src/constants/physics.ts. -/
def MS_TO_KMH : ℚ := 3.6

/-! ## DRS_CONFIG (src/constants/physics.ts) -/

namespace DRS_CONFIG

def activationSpeed : ℚ := 200
def dragMultiplier : ℚ := 0.4
def engineBoostLow : ℚ := 4000
def engineBoostHigh : ℚ := 8000
def boostStartSpeed : ℚ := 200
def boostEndSpeed : ℚ := 300
def downforceMultiplier : ℚ := 0.6

end DRS_CONFIG

/-! ## DRIFT_CONFIG (src/constants/physics.ts) -/

namespace DRIFT_CONFIG

def handbrakeRearGripMultiplier : ℚ := 0.2
def driftEntrySlipAngle : ℚ := 15
def driftExitSlipAngle : ℚ := 8
def driftLateralCorrection : ℚ := 0.55
def normalLateralCorrection : ℚ := 0.92
def driftMaxAngularVelocity : ℚ := 2.8
def normalMaxAngularVelocity : ℚ := 1.2
def throttleOversteerFactor : ℚ := 0.35
def minDriftSpeed : ℚ := 30
def countersteerAssist : ℚ := 0.3

end DRIFT_CONFIG

/-! ## CURB_PHYSICS (src/constants/curb.ts) -/

namespace CURB_PHYSICS

def speedMultiplier : ℚ := 0.92
def gripMultiplier : ℚ := 1.15
def lateralStability : ℚ := 1.1
def minSpeedForEffect : ℚ := 5
def dragMultiplier : ℚ := 1.5

end CURB_PHYSICS

/-- Cap on the yaw angular velocity written back to the engine (MAX_ANG_VEL). -/
def MAX_ANG_VEL : ℚ := 5

/-- Per-component cap on the linear velocity written back (MAX_VELOCITY). -/
def MAX_VELOCITY : ℚ := 100

/-! ## Helper functions of the Car component -/

/-- Smooth interpolation helper (lerp). -/
def lerp (a b t : ℚ) : ℚ := a + (b - a) * t

/-- Math.sign for finite arguments. -/
def jsSign (x : ℚ) : ℚ := if x < 0 then -1 else if 0 < x then 1 else 0

/-- A JavaScript number: some q when finite, none for NaN or an infinity. -/
abbrev JsNum := Option ℚ

/-- sanitizeNumber: if the value is not finite, return the fallback. -/
def sanitizeNumber (value : JsNum) (fallback : ℚ) : ℚ :=
  match value with
  | some x => x
  | none => fallback

/-- Mid band of the engine curve, 60 to 150 km/h (the branch body of
getEngineForce with t = (speedKmh - 60) / 90). -/
def engineForceMidBand (speedKmh : ℚ) : ℚ :=
  ENGINE_FORCE_LOW - (speedKmh - 60) / 90 * (ENGINE_FORCE_LOW - ENGINE_FORCE_MID)

/-- High band of the engine curve, 150 to 250 km/h (the branch body of
getEngineForce with t = (speedKmh - 150) / 100). -/
def engineForceHighBand (speedKmh : ℚ) : ℚ :=
  ENGINE_FORCE_MID - (speedKmh - 150) / 100 * (ENGINE_FORCE_MID - ENGINE_FORCE_HIGH)

/-- Tail of the engine curve above 250 km/h: squared falloff toward 3500 N. -/
def engineForceTail (speedKmh : ℚ) : ℚ :=
  let remaining := max 0 (1 - (speedKmh - 250) / 60)
  let smoothRemaining := remaining * remaining
  ENGINE_FORCE_HIGH * (0.5 + 0.5 * smoothRemaining)

/-- getEngineForce: engine force from speed in m/s (power curve). -/
def getEngineForce (speedMs : ℚ) : ℚ :=
  let speedKmh := speedMs * 3.6
  if speedKmh < 60 then ENGINE_FORCE_LOW
  else if speedKmh < 150 then engineForceMidBand speedKmh
  else if speedKmh < 250 then engineForceHighBand speedKmh
  else engineForceTail speedKmh

/-- getDragForce: 0.5 * rho * Cd * A * v * v. -/
def getDragForce (speedMs dragCoeff : ℚ) : ℚ :=
  0.5 * AIR_DENSITY * dragCoeff * FRONTAL_AREA * speedMs * speedMs

/-- getDownforce: 0.5 * rho * Cl * A * v * v. -/
def getDownforce (speedMs downforceCoeff : ℚ) : ℚ :=
  0.5 * AIR_DENSITY * downforceCoeff * FRONTAL_AREA * speedMs * speedMs

/-- getTireGrip: lateral grip coefficient from slip angle and normal load. -/
def getTireGrip (slipAngleDeg normalLoad gripCoeff : ℚ) : ℚ :=
  let absSlip := |slipAngleDeg|
  let lateralEfficiency :=
    if absSlip < OPTIMAL_SLIP_ANGLE then
      0.7 + 0.3 * (absSlip / OPTIMAL_SLIP_ANGLE)
    else
      max 0.5 (1 - (absSlip - OPTIMAL_SLIP_ANGLE) * SLIP_ANGLE_FALLOFF)
  let loadFactor := 1 - (normalLoad - CAR_MASS * 9.81 * 0.25) * TIRE_LOAD_SENSITIVITY / 10000
  gripCoeff * lateralEfficiency * max 0.7 loadFactor

/-- getMaxSteerAngle: speed-dependent steering limit with smoothstep easing. -/
def getMaxSteerAngle (speedKmh maxAngle minAngle : ℚ) : ℚ :=
  if speedKmh < 40 then maxAngle
  else if speedKmh < 120 then
    let t := (speedKmh - 40) / 80
    let eased := t * t * (3 - 2 * t)
    maxAngle - eased * (maxAngle - maxAngle * 0.5)
  else if speedKmh < 220 then
    let t := (speedKmh - 120) / 100
    let eased := t * t * (3 - 2 * t)
    maxAngle * 0.5 - eased * (maxAngle * 0.5 - minAngle)
  else minAngle

/-- calculateTurnDynamics: Ackermann target yaw rate, grip scaled and capped.
Math.tan is passed in as the function tan; the Number.isFinite check on the
intermediate angular velocity is the identity in exact arithmetic. -/
def calculateTurnDynamics (tan : ℚ → ℚ) (speedMs steerAngle gripFactor : ℚ)
    (isDrifting : Bool) : ℚ :=
  if |steerAngle| < 0.005 ∨ |speedMs| < 0.3 then 0
  else
    let tanSteer := tan |steerAngle|
    if |tanSteer| < 0.001 then 0
    else
      let turnRadius := WHEELBASE / tanSteer
      if turnRadius > 1000 then 0
      else
        let angularVel := speedMs / turnRadius
        let gripInfluence :=
          if isDrifting then 0.5 + 0.35 * gripFactor else 0.4 + 0.25 * gripFactor
        let angularVel2 := angularVel * gripInfluence
        let capped :=
          min |angularVel2|
            (if isDrifting then DRIFT_CONFIG.driftMaxAngularVelocity
             else DRIFT_CONFIG.normalMaxAngularVelocity)
        capped * jsSign steerAngle * jsSign speedMs

/-- calculateGear (src/stores/useCarStore.ts): speed-to-gear table. -/
def calculateGear (speedKmh : ℚ) : ℤ :=
  if speedKmh < 0 then -1
  else if speedKmh < 45 then 1
  else if speedKmh < 85 then 2
  else if speedKmh < 125 then 3
  else if speedKmh < 170 then 4
  else if speedKmh < 220 then 5
  else if speedKmh < 275 then 6
  else 7

/-- The delta clamp at the top of the tick: dt = Math.min(delta, 0.05). -/
def clampDt (delta : ℚ) : ℚ := min delta 0.05

/-! ## Data model -/

structure Vec3 where
  x : ℚ
  y : ℚ
  z : ℚ
deriving DecidableEq

structure Quat where
  x : ℚ
  y : ℚ
  z : ℚ
  w : ℚ
deriving DecidableEq

/-- three.js Vector3.applyQuaternion (cross-product form, exact for the unit
quaternions the engine reports). -/
def applyQuat (q : Quat) (v : Vec3) : Vec3 :=
  let tx := 2 * (q.y * v.z - q.z * v.y)
  let ty := 2 * (q.z * v.x - q.x * v.z)
  let tz := 2 * (q.x * v.y - q.y * v.x)
  { x := v.x + q.w * tx + q.y * tz - q.z * ty
    y := v.y + q.w * ty + q.z * tx - q.x * tz
    z := v.z + q.w * tz + q.x * ty - q.y * tx }

def Vec3.dot (a b : Vec3) : ℚ := a.x * b.x + a.y * b.y + a.z * b.z

/-- An engine-reported vector whose components may each be non-finite. -/
structure EngVec3 where
  x : JsNum
  y : JsNum
  z : JsNum
deriving DecidableEq

/-- The rigid-body state read from the physics engine at tick start. -/
structure EngineState where
  pos : EngVec3
  rot : Quat
  linvel : EngVec3
  angvel : EngVec3
deriving DecidableEq

/-- Weather modifier bundle (src/stores/useWeatherStore related config);
only the numeric multipliers consumed by the physics tick are modelled. -/
structure WeatherModifiers where
  frictionSlipMultiplier : ℚ
  dragMultiplier : ℚ
  downforceMultiplier : ℚ
  engineEfficiencyMultiplier : ℚ
  brakeEfficiencyMultiplier : ℚ
  steerResponseMultiplier : ℚ
  maxSteerAngleMultiplier : ℚ
  driftEntrySlipAngleMultiplier : ℚ
  driftLateralCorrectionMultiplier : ℚ
  maxSpeedMultiplier : ℚ
deriving DecidableEq

/-- Curb contact modifier bundle (currentModifiers of the curb store). -/
structure CurbModifiers where
  gripMultiplier : ℚ
  speedMultiplier : ℚ
  lateralStability : ℚ
deriving DecidableEq

/-- Per-tick control input (getKeys), camera key omitted (UI only). -/
structure ControlInput where
  forward : Bool
  backward : Bool
  left : Bool
  right : Bool
  brake : Bool
  handbrake : Bool
  drs : Bool
deriving DecidableEq

/-- Abstracted Math library calls used by the tick. -/
structure Ops where
  pi : ℚ
  atan2 : ℚ → ℚ → ℚ
  tan : ℚ → ℚ
  sqrt : ℚ → ℚ

/-- The four wheel rotation angles (wheelRotationsRef). -/
structure WheelRots where
  fl : ℚ
  fr : ℚ
  rl : ℚ
  rr : ℚ
deriving DecidableEq

/-- The persistent per-car refs mutated by the tick. -/
structure VehState where
  currentSteer : ℚ
  wheelRots : WheelRots
  smoothedSpeed : ℚ
  lateralG : ℚ
  longitudinalG : ℚ
  isDrifting : Bool
  smoothedVelX : ℚ
  smoothedVelZ : ℚ
  smoothedAngVel : ℚ
  smoothedSlipAngle : ℚ
deriving DecidableEq

/-- Initial ref values at spawn (the useRef initializers). -/
def initialVehState : VehState :=
  { currentSteer := 0
    wheelRots := ⟨0, 0, 0, 0⟩
    smoothedSpeed := 0
    lateralG := 0
    longitudinalG := 0
    isDrifting := false
    smoothedVelX := 0
    smoothedVelZ := 0
    smoothedAngVel := 0
    smoothedSlipAngle := 0 }

/-- The telemetry snapshot written by updateTelemetry. -/
structure Telemetry where
  speed : ℚ
  gear : ℤ
  position : Vec3
  rotation : Quat
  steerAngle : ℚ
  wheelRotations : WheelRots
deriving DecidableEq

/-- Everything one tick writes: engine commands, updated refs, telemetry,
plus the tick-internal scalars the claims talk about (newSpeed is the
longitudinal target speed, effectiveGrip the combined grip, currentSpeed
the signed longitudinal speed read from the engine, dtUsed the clamped
timestep). -/
structure TickOut where
  linvelCmd : Vec3
  angvelCmd : Vec3
  translationCmd : Option Vec3
  rotationCmd : Option Quat
  refs : VehState
  telemetry : Option Telemetry
  newSpeed : ℚ
  effectiveGrip : ℚ
  currentSpeed : ℚ
  telemetrySpeed : ℚ
  telemetryGear : ℤ
  dtUsed : ℚ
deriving DecidableEq

/-! ## Modifier composition (lines 477 to 487 of the Car component) -/

/-- The weather- and tire- and curb-modified physics coefficients computed at
the top of every tick. -/
structure EffectiveCoeffs where
  tireGrip : ℚ
  drag : ℚ
  downforce : ℚ
  brakeForce : ℚ
  maxSpeed : ℚ
  maxReverseSpeed : ℚ
  maxSteer : ℚ
  minSteer : ℚ
  steerSpeed : ℚ
deriving DecidableEq

/-- Multiplicative composition of weather, tire-compound and curb modifiers
onto the base constants. -/
def composeCoeffs (wm : WeatherModifiers) (tireGripMultiplier : ℚ)
    (isOnCurb : Bool) (cm : CurbModifiers) (pi : ℚ) : EffectiveCoeffs :=
  let curbGripBonus := if isOnCurb then cm.gripMultiplier else 1.0
  { tireGrip := BASE_TIRE_GRIP_COEFFICIENT * wm.frictionSlipMultiplier *
      tireGripMultiplier * curbGripBonus
    drag := BASE_DRAG_COEFFICIENT * wm.dragMultiplier
    downforce := BASE_DOWNFORCE_COEFFICIENT * wm.downforceMultiplier
    brakeForce := BASE_BRAKE_FORCE * wm.brakeEfficiencyMultiplier
    maxSpeed := BASE_MAX_SPEED * wm.maxSpeedMultiplier
    maxReverseSpeed := BASE_MAX_REVERSE_SPEED * wm.maxSpeedMultiplier
    maxSteer := BASE_MAX_STEER_ANGLE pi * wm.maxSteerAngleMultiplier
    minSteer := BASE_MIN_STEER_ANGLE pi * wm.maxSteerAngleMultiplier
    steerSpeed := BASE_STEER_SPEED * wm.steerResponseMultiplier }

/-! ## DRS (lines 559 to 567) -/

/-- drsActive = drs and speedKmh at or above the activation speed. -/
def drsActiveCheck (drs : Bool) (speedKmh : ℚ) : Bool :=
  drs && decide (DRS_CONFIG.activationSpeed ≤ speedKmh)

/-- Drag force after the DRS reduction. -/
def effectiveDragForce (speedMs dragCoeff : ℚ) (drs : Bool) : ℚ :=
  let dragForce := getDragForce speedMs dragCoeff
  if drsActiveCheck drs (speedMs * MS_TO_KMH) then
    dragForce * DRS_CONFIG.dragMultiplier
  else dragForce

/-- Downforce after the DRS reduction. -/
def effectiveDownforceVal (speedMs downforceCoeff : ℚ) (drs : Bool) : ℚ :=
  let downforce := getDownforce speedMs downforceCoeff
  if drsActiveCheck drs (speedMs * MS_TO_KMH) then
    downforce * DRS_CONFIG.downforceMultiplier
  else downforce

/-! ## Weight transfer (lines 576 to 592) -/

def longitudinalTransfer (longG : ℚ) : ℚ :=
  longG * CAR_MASS * CG_HEIGHT / WHEELBASE * WEIGHT_TRANSFER_LONG

def lateralTransfer (latG : ℚ) : ℚ :=
  |latG| * CAR_MASS * CG_HEIGHT / TRACK_WIDTH * WEIGHT_TRANSFER_LAT

def frontBaseLoad (totalLoad : ℚ) : ℚ := totalLoad * WEIGHT_DIST_FRONT

def rearBaseLoad (totalLoad : ℚ) : ℚ := totalLoad * (1 - WEIGHT_DIST_FRONT)

def frontLoad (totalLoad longG : ℚ) : ℚ :=
  frontBaseLoad totalLoad + longitudinalTransfer longG

def rearLoad (totalLoad longG : ℚ) : ℚ :=
  rearBaseLoad totalLoad - longitudinalTransfer longG

/-! ## Drift state machine (lines 666 to 682) -/

/-- One update of isDriftingRef; entryA and exitA are the modifier-scaled
entry and exit slip angles. -/
def driftStep (isDrifting : Bool) (absSlipAngle speedKmh entryA exitA : ℚ) : Bool :=
  if isDrifting = false ∧ absSlipAngle > entryA ∧
      speedKmh > DRIFT_CONFIG.minDriftSpeed then true
  else if isDrifting = true ∧ absSlipAngle < exitA then false
  else isDrifting

/-! ## Speed integration and clamping (lines 738 to 761) -/

/-- The longitudinal speed update: integrate, clamp to the speed limits,
sanitize, zero at standstill, and blend down when stuck. -/
def updateSpeed (currentSpeed accel dt maxSpeed maxReverseSpeed actualSpeed : ℚ)
    (fwd bwd : Bool) : ℚ :=
  let newSpeed0 := currentSpeed + accel * dt
  let newSpeed1 := max (-maxReverseSpeed) (min maxSpeed newSpeed0)
  let newSpeed2 := sanitizeNumber (some newSpeed1) currentSpeed
  let newSpeed3 :=
    if |newSpeed2| < 0.1 ∧ fwd = false ∧ bwd = false then 0 else newSpeed2
  if |newSpeed3| - actualSpeed > 10 ∧ actualSpeed < 2 then
    lerp newSpeed3 (actualSpeed * jsSign newSpeed3) (dt * 5)
  else newSpeed3

/-! ## Combined grip (lines 655 to 664) -/

/-- The combined effective grip: 40/60 front/rear weighted average, scaled by
the downforce bonus and the lateral weight transfer penalty, sanitized with
fallback 1.0. -/
def combinedEffectiveGrip (front rear downforce latTransfer : ℚ) : ℚ :=
  let baseWeight := CAR_MASS * 9.81
  let gripCoefficient := front * 0.4 + rear * 0.6
  let latTransferPenalty := 1 - latTransfer / baseWeight * 0.15
  let downforceBonus := 1 + downforce / baseWeight * 0.3
  sanitizeNumber (some (gripCoefficient * downforceBonus * latTransferPenalty)) 1.0

/-! ## Guard predicates (lines 504 to 511) -/

def velocityIsInvalid (es : EngineState) : Bool :=
  es.linvel.x.isNone || es.linvel.y.isNone || es.linvel.z.isNone

def angVelIsInvalid (es : EngineState) : Bool :=
  es.angvel.x.isNone || es.angvel.y.isNone || es.angvel.z.isNone

def posIsInvalid (es : EngineState) : Bool :=
  es.pos.x.isNone || es.pos.y.isNone || es.pos.z.isNone

/-! ## The tick (useFrame body, lines 462 to 923)

External collaborator side effects that carry no physics state (weather
transition update, tire wear accumulation, track temperature painting, the
spray-effect React state and the camera toggle) are not modelled; the tick
stops at the telemetry write, the last physics-relevant effect. -/

/-- The recovery branch of the stability guard (lines 512 to 536): zero the
engine velocities, reset the smoothed refs, teleport to spawn if the position
itself is non-finite, and skip the rest of the tick. -/
def tickGuardOut (spawnPos : Vec3) (es : EngineState) (vs : VehState)
    (dt : ℚ) : TickOut :=
  { linvelCmd := ⟨0, 0, 0⟩
    angvelCmd := ⟨0, 0, 0⟩
    translationCmd := if posIsInvalid es then some spawnPos else none
    rotationCmd := if posIsInvalid es then some ⟨0, 0, 0, 1⟩ else none
    refs := { vs with
      smoothedSpeed := 0
      smoothedVelX := 0
      smoothedVelZ := 0
      smoothedAngVel := 0
      smoothedSlipAngle := 0
      lateralG := 0
      longitudinalG := 0
      isDrifting := false }
    telemetry := none
    newSpeed := 0
    effectiveGrip := 0
    currentSpeed := 0
    telemetrySpeed := 0
    telemetryGear := 0
    dtUsed := dt }

/-- The main body of the tick, entered when every engine-reported component
is finite.  pos, linvel and angvel are the extracted finite values. -/
def tickMain (ops : Ops) (wm : WeatherModifiers) (tireGripMultiplier : ℚ)
    (isOnCurb : Bool) (cm : CurbModifiers) (ctl : ControlInput) (dt : ℚ)
    (pos : Vec3) (rot : Quat) (linvel : Vec3) (angvel : Vec3)
    (vs : VehState) : TickOut :=
  let co := composeCoeffs wm tireGripMultiplier isOnCurb cm ops.pi
  -- Velocity components (lines 539 to 553)
  let forwardDir := applyQuat rot ⟨0, 0, 1⟩
  let rightDir := applyQuat rot ⟨1, 0, 0⟩
  let currentSpeed := linvel.dot forwardDir
  let absSpeed := |currentSpeed|
  let speedKmh := absSpeed * 3.6
  let lateralSpeed := linvel.dot rightDir
  let smoothedSpeed2 := lerp vs.smoothedSpeed absSpeed (dt * 10)
  -- Aerodynamics (lines 558 to 572)
  let dragForce := effectiveDragForce absSpeed co.drag ctl.drs
  let downforce := effectiveDownforceVal absSpeed co.downforce ctl.drs
  let baseWeight := CAR_MASS * 9.81
  let totalLoad := baseWeight + downforce
  -- Weight transfer (lines 576 to 592)
  let latTransfer := lateralTransfer vs.lateralG
  let frontLoadV := frontLoad totalLoad vs.longitudinalG
  let rearLoadV := rearLoad totalLoad vs.longitudinalG
  -- Steering (lines 597 to 619)
  let maxSteer := getMaxSteerAngle speedKmh co.maxSteer co.minSteer
  let steer1 :=
    if ctl.left then min (vs.currentSteer + co.steerSpeed * dt) maxSteer
    else if ctl.right then max (vs.currentSteer - co.steerSpeed * dt) (-maxSteer)
    else
      let centeringStrength := STEER_RETURN_SPEED * (1 + speedKmh / 100)
      let centeringDelta := centeringStrength * dt
      if |vs.currentSteer| < centeringDelta then 0
      else vs.currentSteer - jsSign vs.currentSteer * centeringDelta
  let currentSteer2 := max (-maxSteer) (min maxSteer steer1)
  -- Tire physics and slip (lines 625 to 664)
  let rawSlipAngle :=
    if absSpeed > 0.5 then ops.atan2 lateralSpeed absSpeed * (180 / ops.pi) else 0
  let smoothedSlipAngle2 :=
    lerp vs.smoothedSlipAngle rawSlipAngle (min 1 (dt * 25))
  let slipAngle := smoothedSlipAngle2
  let frontGripCoefficient := getTireGrip slipAngle frontLoadV co.tireGrip
  let rearGrip0 := getTireGrip slipAngle rearLoadV co.tireGrip
  let rearGrip1 :=
    if ctl.handbrake ∧ speedKmh > DRIFT_CONFIG.minDriftSpeed then
      rearGrip0 * DRIFT_CONFIG.handbrakeRearGripMultiplier
    else rearGrip0
  let isTurning := |currentSteer2| > 0.05
  let rearGripCoefficient :=
    if ctl.forward ∧ isTurning ∧ speedKmh > DRIFT_CONFIG.minDriftSpeed then
      rearGrip1 * (1 - DRIFT_CONFIG.throttleOversteerFactor)
    else rearGrip1
  let effectiveGripV :=
    combinedEffectiveGrip frontGripCoefficient rearGripCoefficient downforce latTransfer
  -- Drift state machine (lines 666 to 682)
  let driftEntryAngle :=
    DRIFT_CONFIG.driftEntrySlipAngle * wm.driftEntrySlipAngleMultiplier
  let driftExitAngle :=
    DRIFT_CONFIG.driftExitSlipAngle * wm.driftEntrySlipAngleMultiplier
  let absSlipAngle := |slipAngle|
  let isDrifting2 := driftStep vs.isDrifting absSlipAngle speedKmh driftEntryAngle driftExitAngle
  -- Longitudinal forces (lines 687 to 736)
  let longitudinalForce0 :=
    if ctl.forward ∧ currentSpeed < co.maxSpeed then
      let engineForce0 := getEngineForce absSpeed
      let engineForce :=
        if drsActiveCheck ctl.drs speedKmh ∧ DRS_CONFIG.boostStartSpeed ≤ speedKmh then
          let boostRange := DRS_CONFIG.boostEndSpeed - DRS_CONFIG.boostStartSpeed
          let boostProgress := min 1 ((speedKmh - DRS_CONFIG.boostStartSpeed) / boostRange)
          engineForce0 +
            lerp DRS_CONFIG.engineBoostLow DRS_CONFIG.engineBoostHigh boostProgress
        else engineForce0
      let corneringPenalty := max 0.7 (1 - |currentSteer2| * 0.5)
      engineForce * corneringPenalty - dragForce
    else if ctl.backward then
      if currentSpeed > 0.3 then -co.brakeForce
      else if currentSpeed > -co.maxReverseSpeed then -(getEngineForce 0) * 0.5
      else 0
    else if absSpeed > 0.5 then
      if currentSpeed < 0 then ENGINE_BRAKE + dragForce
      else -ENGINE_BRAKE - dragForce
    else 0
  let longitudinalForce1 :=
    if ctl.brake ∧ absSpeed > 0.3 then
      -co.brakeForce * 1.2 * jsSign currentSpeed
    else longitudinalForce0
  let longitudinalForce :=
    if isOnCurb ∧ absSpeed > CURB_PHYSICS.minSpeedForEffect then
      longitudinalForce1 -
        absSpeed * CAR_MASS * (1 - cm.speedMultiplier) * 0.5 * jsSign currentSpeed
    else longitudinalForce1
  let longitudinalAccel := longitudinalForce / CAR_MASS
  -- Speed update and clamping (lines 742 to 761)
  let actualSpeed := ops.sqrt (linvel.x * linvel.x + linvel.z * linvel.z)
  let newSpeedF := updateSpeed currentSpeed longitudinalAccel dt co.maxSpeed
    co.maxReverseSpeed actualSpeed ctl.forward ctl.backward
  let longitudinalG2 := lerp vs.longitudinalG (longitudinalAccel / 9.81) (dt * 8)
  -- Turn dynamics (lines 770 to 818)
  let targetAngVel0 :=
    if absSpeed > 0.3 then
      calculateTurnDynamics ops.tan currentSpeed currentSteer2 effectiveGripV isDrifting2
    else 0
  let targetAngVel :=
    if isDrifting2 ∨ ctl.handbrake then targetAngVel0 + slipAngle * 0.015
    else targetAngVel0
  let angVelSmoothing : ℚ := if isDrifting2 then 25 else 18
  let smoothedAngVel2 :=
    lerp vs.smoothedAngVel targetAngVel (min 1 (dt * angVelSmoothing))
  let newAngVelY := lerp angvel.y smoothedAngVel2 (min 1 (dt * 30))
  let safeAngVelX := sanitizeNumber (some (angvel.x * 0.85)) 0
  let safeAngVelY := sanitizeNumber (some newAngVelY) 0
  let safeAngVelZ := sanitizeNumber (some (angvel.z * 0.85)) 0
  let clampedAngVelY := max (-MAX_ANG_VEL) (min MAX_ANG_VEL safeAngVelY)
  let centrifugalAccel := |newAngVelY| * absSpeed
  let lateralG2 := lerp vs.lateralG (centrifugalAccel / 9.81) (dt * 8)
  -- Lateral grip correction (lines 827 to 850)
  let lateralCorrection0 :=
    if isDrifting2 ∨ ctl.handbrake then
      DRIFT_CONFIG.driftLateralCorrection * wm.driftLateralCorrectionMultiplier
    else
      min DRIFT_CONFIG.normalLateralCorrection (0.88 + effectiveGripV * 0.05) *
        wm.driftLateralCorrectionMultiplier
  let lateralCorrection1 :=
    if isOnCurb then min 1.0 (lateralCorrection0 * cm.lateralStability)
    else lateralCorrection0
  let lateralCorrection := sanitizeNumber (some lateralCorrection1) 0.9
  -- Final velocity build and write (lines 853 to 893)
  let rawFinalVelX :=
    forwardDir.x * newSpeedF + rightDir.x * (lateralSpeed * (1 - lateralCorrection))
  let rawFinalVelZ :=
    forwardDir.z * newSpeedF + rightDir.z * (lateralSpeed * (1 - lateralCorrection))
  let safeVelX := sanitizeNumber (some rawFinalVelX) linvel.x
  let safeVelZ := sanitizeNumber (some rawFinalVelZ) linvel.z
  let clampedVelX := max (-MAX_VELOCITY) (min MAX_VELOCITY safeVelX)
  let clampedVelZ := max (-MAX_VELOCITY) (min MAX_VELOCITY safeVelZ)
  let lowSpeed := absSpeed < 5
  let smoothedVelX2 :=
    if lowSpeed then lerp vs.smoothedVelX clampedVelX (min 1 (dt * 30))
    else clampedVelX
  let smoothedVelZ2 :=
    if lowSpeed then lerp vs.smoothedVelZ clampedVelZ (min 1 (dt * 30))
    else clampedVelZ
  let linvelCmd : Vec3 :=
    if lowSpeed then ⟨smoothedVelX2, linvel.y, smoothedVelZ2⟩
    else ⟨clampedVelX, linvel.y, clampedVelZ⟩
  -- Wheel rotation (lines 898 to 906)
  let wheelRotSpeed := newSpeedF / 0.33
  let wheelRots2 : WheelRots :=
    ⟨vs.wheelRots.fl + wheelRotSpeed * dt, vs.wheelRots.fr + wheelRotSpeed * dt,
     vs.wheelRots.rl + wheelRotSpeed * dt, vs.wheelRots.rr + wheelRotSpeed * dt⟩
  -- Telemetry (lines 911 to 923)
  let actualVelocityMagnitude :=
    ops.sqrt (clampedVelX * clampedVelX + clampedVelZ * clampedVelZ)
  let telemetrySpeedKmh := actualVelocityMagnitude * MS_TO_KMH
  let gear := calculateGear telemetrySpeedKmh
  { linvelCmd := linvelCmd
    angvelCmd := ⟨safeAngVelX, clampedAngVelY, safeAngVelZ⟩
    translationCmd := none
    rotationCmd := none
    refs :=
      { currentSteer := currentSteer2
        wheelRots := wheelRots2
        smoothedSpeed := smoothedSpeed2
        lateralG := lateralG2
        longitudinalG := longitudinalG2
        isDrifting := isDrifting2
        smoothedVelX := smoothedVelX2
        smoothedVelZ := smoothedVelZ2
        smoothedAngVel := smoothedAngVel2
        smoothedSlipAngle := smoothedSlipAngle2 }
    telemetry := some
      { speed := telemetrySpeedKmh
        gear := if currentSpeed < -0.5 then -1 else gear
        position := pos
        rotation := rot
        steerAngle := currentSteer2
        wheelRotations := wheelRots2 }
    newSpeed := newSpeedF
    effectiveGrip := effectiveGripV
    currentSpeed := currentSpeed
    telemetrySpeed := telemetrySpeedKmh
    telemetryGear := if currentSpeed < -0.5 then -1 else gear
    dtUsed := dt }

/-- One full tick: clamp the timestep, run the stability guard, then either
recover or run the physics body. -/
def tick (ops : Ops) (wm : WeatherModifiers) (tireGripMultiplier : ℚ)
    (isOnCurb : Bool) (cm : CurbModifiers) (ctl : ControlInput) (dt0 : ℚ)
    (spawnPos : Vec3) (es : EngineState) (vs : VehState) : TickOut :=
  let dt := clampDt dt0
  if velocityIsInvalid es || angVelIsInvalid es || posIsInvalid es then
    tickGuardOut spawnPos es vs dt
  else
    tickMain ops wm tireGripMultiplier isOnCurb cm ctl dt
      ⟨es.pos.x.getD 0, es.pos.y.getD 0, es.pos.z.getD 0⟩
      es.rot
      ⟨es.linvel.x.getD 0, es.linvel.y.getD 0, es.linvel.z.getD 0⟩
      ⟨es.angvel.x.getD 0, es.angvel.y.getD 0, es.angvel.z.getD 0⟩
      vs

/-- An engine state all of whose reported components are finite. -/
def finiteES (px py pz : ℚ) (rot : Quat) (lvx lvy lvz avx avy avz : ℚ) : EngineState :=
  { pos := ⟨some px, some py, some pz⟩
    rot := rot
    linvel := ⟨some lvx, some lvy, some lvz⟩
    angvel := ⟨some avx, some avy, some avz⟩ }

/-! ## Helper lemmas -/

theorem sanitizeNumber_some (x fb : ℚ) : sanitizeNumber (some x) fb = x := rfl

theorem sanitizeNumber_none (fb : ℚ) : sanitizeNumber none fb = fb := rfl

/-- A linear interpolation with parameter between 0 and 1 stays inside any
interval containing both endpoints. -/
theorem lerp_mem (a b t lo hi : ℚ) (ha1 : lo ≤ a) (ha2 : a ≤ hi)
    (hb1 : lo ≤ b) (hb2 : b ≤ hi) (ht0 : 0 ≤ t) (ht1 : t ≤ 1) :
    lo ≤ lerp a b t ∧ lerp a b t ≤ hi := by
  unfold lerp
  constructor <;> nlinarith

/-- The longitudinal speed pipeline keeps the result inside the speed limits
whenever those limits are positive, the timestep is the clamped one and the
engine-reported planar speed is nonnegative. -/
theorem updateSpeed_bounds (cs a dt S R act : ℚ) (fwd bwd : Bool)
    (hS : 0 < S) (hR : 0 < R) (hdt0 : 0 ≤ dt) (hdt1 : dt ≤ 0.05) (hact : 0 ≤ act) :
    -R ≤ updateSpeed cs a dt S R act fwd bwd ∧
      updateSpeed cs a dt S R act fwd bwd ≤ S := by
  unfold updateSpeed sanitizeNumber
  dsimp only
  have h1a : -R ≤ max (-R) (min S (cs + a * dt)) := le_max_left _ _
  have h1b : max (-R) (min S (cs + a * dt)) ≤ S :=
    max_le (by linarith) (min_le_left _ _)
  set n1 := max (-R) (min S (cs + a * dt)) with hn1
  have ht0 : (0:ℚ) ≤ dt * 5 := by linarith
  have ht1 : dt * 5 ≤ 1 := by linarith
  by_cases h0 : |n1| < 0.1 ∧ fwd = false ∧ bwd = false
  · rw [if_pos h0]
    by_cases hstk : |(0:ℚ)| - act > 10 ∧ act < 2
    · exfalso
      rw [abs_zero] at hstk
      linarith [hstk.1]
    · rw [if_neg hstk]
      exact ⟨by linarith, by linarith⟩
  · rw [if_neg h0]
    by_cases hstk : |n1| - act > 10 ∧ act < 2
    · rw [if_pos hstk]
      obtain ⟨hd, ha2⟩ := hstk
      rcases abs_cases n1 with ⟨habs, hsgn⟩ | ⟨habs, hsgn⟩
      · -- n1 is nonnegative, and in fact larger than 10
        have hpos : 0 < n1 := by linarith
        have hsig : jsSign n1 = 1 := by
          unfold jsSign
          rw [if_neg (by linarith), if_pos hpos]
        rw [hsig]
        exact lerp_mem n1 (act * 1) (dt * 5) (-R) S h1a h1b (by linarith)
          (by linarith) ht0 ht1
      · -- n1 is negative, below -10
        have hneg : n1 < 0 := by linarith
        have hsig : jsSign n1 = -1 := by
          unfold jsSign
          rw [if_pos hneg]
        rw [hsig]
        exact lerp_mem n1 (act * (-1)) (dt * 5) (-R) S h1a h1b (by linarith)
          (by linarith) ht0 ht1
    · rw [if_neg hstk]
      exact ⟨h1a, h1b⟩

/-- The tire grip coefficient is positive whenever the base grip coefficient
is: the lateral efficiency is at least 0.5 and the load factor at least 0.7. -/
theorem getTireGrip_pos (slip load gripCoeff : ℚ) (hg : 0 < gripCoeff) :
    0 < getTireGrip slip load gripCoeff := by
  unfold getTireGrip
  dsimp only
  apply mul_pos (mul_pos hg _)
  · exact lt_of_lt_of_le (by norm_num) (le_max_left _ _)
  · split
    · have := abs_nonneg slip
      have h8 : (0:ℚ) < OPTIMAL_SLIP_ANGLE := by norm_num [OPTIMAL_SLIP_ANGLE]
      have := div_nonneg (abs_nonneg slip) (le_of_lt h8)
      nlinarith
    · exact lt_of_lt_of_le (by norm_num) (le_max_left _ _)

/-- Downforce (after the optional DRS reduction) is nonnegative whenever the
effective downforce coefficient is nonnegative. -/
theorem effectiveDownforceVal_nonneg (v c : ℚ) (drs : Bool) (hc : 0 ≤ c) :
    0 ≤ effectiveDownforceVal v c drs := by
  unfold effectiveDownforceVal getDownforce
  dsimp only
  have hd : (0:ℚ) ≤ 0.5 * AIR_DENSITY * c * FRONTAL_AREA * v * v := by
    have hvv : (0:ℚ) ≤ v * v := mul_self_nonneg v
    have : (0:ℚ) ≤ 0.5 * AIR_DENSITY * c * FRONTAL_AREA := by
      norm_num [AIR_DENSITY, FRONTAL_AREA]
      linarith
    nlinarith
  split
  · have : (0:ℚ) ≤ DRS_CONFIG.downforceMultiplier := by
      norm_num [DRS_CONFIG.downforceMultiplier]
    exact mul_nonneg hd this
  · exact hd

/-- The combined effective grip is positive when front and rear grip are
positive, downforce is nonnegative and the lateral weight transfer is small
enough that the lateral transfer penalty stays positive. -/
theorem combinedEffectiveGrip_pos (front rear downforce latTransfer : ℚ)
    (hf : 0 < front) (hr : 0 < rear) (hd : 0 ≤ downforce)
    (hlt : latTransfer / (CAR_MASS * 9.81) * 0.15 < 1) :
    0 < combinedEffectiveGrip front rear downforce latTransfer := by
  unfold combinedEffectiveGrip
  dsimp only
  rw [sanitizeNumber_some]
  have hW : (0:ℚ) < CAR_MASS * 9.81 := by norm_num [CAR_MASS]
  have hgrip : 0 < front * 0.4 + rear * 0.6 := by nlinarith
  have hbonus : 0 < 1 + downforce / (CAR_MASS * 9.81) * 0.3 := by
    have := div_nonneg hd (le_of_lt hW)
    nlinarith
  have hpen : 0 < 1 - latTransfer / (CAR_MASS * 9.81) * 0.15 := by linarith
  exact mul_pos (mul_pos hgrip hbonus) hpen

/-- For a nonnegative speed the gear table lands in first through seventh
gear; the reverse row needs a negative argument. -/
theorem calculateGear_range (s : ℚ) (hs : 0 ≤ s) :
    1 ≤ calculateGear s ∧ calculateGear s ≤ 7 := by
  unfold calculateGear
  split_ifs with h1 h2 h3 h4 h5 h6 h7 <;> first | (exfalso; linarith) | norm_num

theorem drsActiveCheck_on (s : ℚ) (h : DRS_CONFIG.activationSpeed ≤ s) :
    drsActiveCheck true s = true := by
  simp [drsActiveCheck, h]

theorem drsActiveCheck_off (s : ℚ) : drsActiveCheck false s = false := rfl

theorem drsActiveCheck_slow (d : Bool) (s : ℚ) (h : s < DRS_CONFIG.activationSpeed) :
    drsActiveCheck d s = false := by
  simp [drsActiveCheck, not_le.mpr h]

/-! ## Shared concrete inputs for instantiated corollaries -/

def cOps : Ops := ⟨355 / 113, fun _ _ => 0, fun _ => 0, fun _ => 0⟩

def cWm : WeatherModifiers := ⟨1, 1, 1, 1, 1, 1, 1, 1, 1, 1⟩

def cCm : CurbModifiers :=
  ⟨CURB_PHYSICS.gripMultiplier, CURB_PHYSICS.speedMultiplier, CURB_PHYSICS.lateralStability⟩

def cCtl : ControlInput := ⟨false, false, false, false, false, false, false⟩

def cSpawn : Vec3 := ⟨0, 1, 0⟩

def cEsRest : EngineState := finiteES 0 1 0 ⟨0, 0, 0, 1⟩ 0 0 0 0 0 0

/-! ## Claim theorems -/

/-- C5: getEngineForce is the stated piecewise curve: constant high force
below 60 km/h, a linear blend from 60 to 150, a linear blend from 150 to
250, a squared-falloff tail above 250 that settles at the asymptotic minimum
3500 N from 310 km/h on; and it is continuous at each breakpoint, in that
the one-sided branch formulas agree at 60, 150 and 250 km/h. -/
theorem claim_c5_engineForce_curve :
    (∀ s : ℚ, s * 3.6 < 60 → getEngineForce s = ENGINE_FORCE_LOW) ∧
    (∀ s : ℚ, 60 ≤ s * 3.6 → s * 3.6 < 150 →
      getEngineForce s = engineForceMidBand (s * 3.6)) ∧
    (∀ s : ℚ, 150 ≤ s * 3.6 → s * 3.6 < 250 →
      getEngineForce s = engineForceHighBand (s * 3.6)) ∧
    (∀ s : ℚ, 250 ≤ s * 3.6 → getEngineForce s = engineForceTail (s * 3.6)) ∧
    (∀ s : ℚ, 310 ≤ s * 3.6 → getEngineForce s = 3500) ∧
    engineForceMidBand 60 = ENGINE_FORCE_LOW ∧
    engineForceHighBand 150 = engineForceMidBand 150 ∧
    engineForceTail 250 = engineForceHighBand 250 := by
  refine ⟨?_, ?_, ?_, ?_, ?_, ?_, ?_, ?_⟩
  · intro s h
    unfold getEngineForce
    rw [if_pos h]
  · intro s h1 h2
    unfold getEngineForce
    rw [if_neg (by linarith), if_pos h2]
  · intro s h1 h2
    unfold getEngineForce
    rw [if_neg (by linarith), if_neg (by linarith), if_pos h2]
  · intro s h1
    unfold getEngineForce
    rw [if_neg (by linarith), if_neg (by linarith), if_neg (by linarith)]
  · intro s h1
    unfold getEngineForce engineForceTail
    rw [if_neg (by linarith), if_neg (by linarith), if_neg (by linarith)]
    dsimp only
    have hz : max 0 (1 - (s * 3.6 - 250) / 60) = 0 := by
      apply max_eq_left
      have h60 : (60:ℚ) ≤ s * 3.6 - 250 := by linarith
      have : (1:ℚ) ≤ (s * 3.6 - 250) / 60 := by
        rw [le_div_iff₀ (by norm_num)]
        linarith
      linarith
    rw [hz]
    norm_num [ENGINE_FORCE_HIGH]
  · norm_num [engineForceMidBand, ENGINE_FORCE_LOW, ENGINE_FORCE_MID]
  · norm_num [engineForceMidBand, engineForceHighBand, ENGINE_FORCE_LOW,
      ENGINE_FORCE_MID, ENGINE_FORCE_HIGH]
  · norm_num [engineForceTail, engineForceHighBand, ENGINE_FORCE_MID, ENGINE_FORCE_HIGH]

/-- Witness for C5 at concrete speeds in each band (10, 25, 50, 75 and 100
m/s, that is 36, 90, 180, 270 and 360 km/h). -/
theorem claim_c5_witness :
    getEngineForce 10 = ENGINE_FORCE_LOW ∧
    getEngineForce 25 = engineForceMidBand (25 * 3.6) ∧
    getEngineForce 50 = engineForceHighBand (50 * 3.6) ∧
    getEngineForce 75 = engineForceTail (75 * 3.6) ∧
    getEngineForce 100 = 3500 :=
  ⟨claim_c5_engineForce_curve.1 10 (by norm_num),
   claim_c5_engineForce_curve.2.1 25 (by norm_num) (by norm_num),
   claim_c5_engineForce_curve.2.2.1 50 (by norm_num) (by norm_num),
   claim_c5_engineForce_curve.2.2.2.1 75 (by norm_num),
   claim_c5_engineForce_curve.2.2.2.2.1 100 (by norm_num)⟩

/-- C9: every tick integrates with dt = min(reported delta, 0.05): the
timestep used never exceeds 50 ms and equals the reported delta whenever
that delta is at most 50 ms. -/
theorem claim_c9_dt_clamp :
    (∀ ops wm tg onCurb cm ctl (dt0 : ℚ) spawn es vs,
      (tick ops wm tg onCurb cm ctl dt0 spawn es vs).dtUsed = clampDt dt0) ∧
    (∀ d : ℚ, clampDt d ≤ 0.05) ∧
    (∀ d : ℚ, d ≤ 0.05 → clampDt d = d) := by
  refine ⟨?_, fun d => min_le_right d 0.05, fun d h => min_eq_left h⟩
  intro ops wm tg onCurb cm ctl dt0 spawn es vs
  unfold tick
  dsimp only
  split <;> rfl

/-- Witness for C9: a 200 ms lag spike is clamped to 50 ms, a 10 ms frame is
used as is. -/
theorem claim_c9_witness :
    (tick cOps cWm 1 false cCm cCtl 0.2 cSpawn cEsRest initialVehState).dtUsed =
      clampDt 0.2 ∧
    clampDt 0.2 ≤ 0.05 ∧ clampDt 0.01 = 0.01 :=
  ⟨claim_c9_dt_clamp.1 cOps cWm 1 false cCm cCtl 0.2 cSpawn cEsRest initialVehState,
   claim_c9_dt_clamp.2.1 0.2,
   claim_c9_dt_clamp.2.2 0.01 (by norm_num)⟩

theorem driftStep_enter_iff (a kmh e x : ℚ) :
    driftStep false a kmh e x = true ↔
      a > e ∧ kmh > DRIFT_CONFIG.minDriftSpeed := by
  unfold driftStep
  by_cases h : a > e ∧ kmh > DRIFT_CONFIG.minDriftSpeed
  · rw [if_pos ⟨rfl, h.1, h.2⟩]
    simp [h]
  · rw [if_neg fun hc => h ⟨hc.2.1, hc.2.2⟩,
      if_neg fun hc => absurd hc.1 (by decide)]
    simp [h]

theorem driftStep_exit_iff (a kmh e x : ℚ) :
    driftStep true a kmh e x = false ↔ a < x := by
  unfold driftStep
  rw [if_neg fun hc => absurd hc.1 (by decide)]
  by_cases h : a < x
  · rw [if_pos ⟨rfl, h⟩]
    simp [h]
  · rw [if_neg fun hc => h hc.2]
    simp [h]

theorem driftStep_stay (a kmh e x : ℚ) (hxa : x ≤ a) :
    driftStep true a kmh e x = true := by
  cases hb : driftStep true a kmh e x with
  | true => rfl
  | false =>
      exact absurd ((driftStep_exit_iff a kmh e x).mp hb) (not_lt.mpr hxa)

/-- C3: the drift state machine starts Gripped, enters Drifting exactly when
the absolute slip angle exceeds the scaled entry angle and the speed exceeds
the minimum drift speed, leaves Drifting exactly when the absolute slip
angle falls below the scaled exit angle, stays Drifting at or above the exit
threshold, and the exit threshold is strictly below the entry threshold for
every positive modifier. -/
theorem claim_c3_drift_fsm :
    initialVehState.isDrifting = false ∧
    (∀ a kmh e x : ℚ, driftStep false a kmh e x = true ↔
      a > e ∧ kmh > DRIFT_CONFIG.minDriftSpeed) ∧
    (∀ a kmh e x : ℚ, driftStep true a kmh e x = false ↔ a < x) ∧
    (∀ a kmh e x : ℚ, x ≤ a → driftStep true a kmh e x = true) ∧
    (∀ m : ℚ, 0 < m →
      DRIFT_CONFIG.driftExitSlipAngle * m < DRIFT_CONFIG.driftEntrySlipAngle * m) := by
  refine ⟨rfl, driftStep_enter_iff, driftStep_exit_iff, driftStep_stay, ?_⟩
  intro m hm
  unfold DRIFT_CONFIG.driftExitSlipAngle DRIFT_CONFIG.driftEntrySlipAngle
  nlinarith

/-- Witness for C3: entering a drift at 20 degrees of slip and 40 km/h,
staying in it at the exit threshold, and the 8 versus 15 degree band. -/
theorem claim_c3_witness :
    driftStep false 20 40 15 8 = true ∧
    driftStep true 8 40 15 8 = true ∧
    DRIFT_CONFIG.driftExitSlipAngle * 1 < DRIFT_CONFIG.driftEntrySlipAngle * 1 :=
  ⟨(claim_c3_drift_fsm.2.1 20 40 15 8).mpr ⟨by norm_num, by norm_num [DRIFT_CONFIG.minDriftSpeed]⟩,
   claim_c3_drift_fsm.2.2.2.1 8 40 15 8 le_rfl,
   claim_c3_drift_fsm.2.2.2.2 1 (by norm_num)⟩

/-- C8: composing the modifier sources when every collaborator multiplier is
1.0 (dry weather, neutral tire multiplier, not on curb) yields effective
coefficients exactly equal to their base values, for any curb bundle and any
value of Math.PI. -/
theorem claim_c8_modifier_identity (pi : ℚ) (cm : CurbModifiers) :
    composeCoeffs ⟨1, 1, 1, 1, 1, 1, 1, 1, 1, 1⟩ 1 false cm pi =
      ⟨BASE_TIRE_GRIP_COEFFICIENT, BASE_DRAG_COEFFICIENT, BASE_DOWNFORCE_COEFFICIENT,
       BASE_BRAKE_FORCE, BASE_MAX_SPEED, BASE_MAX_REVERSE_SPEED,
       BASE_MAX_STEER_ANGLE pi, BASE_MIN_STEER_ANGLE pi, BASE_STEER_SPEED⟩ := by
  norm_num [composeCoeffs]

/-- C7: at or above the DRS activation speed with positive drag, effective
drag with DRS on is strictly below drag with DRS off; below the activation
speed DRS changes nothing. -/
theorem claim_c7_drs_drag :
    (∀ v cd : ℚ, DRS_CONFIG.activationSpeed ≤ v * MS_TO_KMH → 0 < getDragForce v cd →
      effectiveDragForce v cd true < effectiveDragForce v cd false) ∧
    (∀ v cd : ℚ, v * MS_TO_KMH < DRS_CONFIG.activationSpeed →
      effectiveDragForce v cd true = effectiveDragForce v cd false) := by
  constructor
  · intro v cd hsp hdrag
    unfold effectiveDragForce
    rw [drsActiveCheck_on _ hsp, drsActiveCheck_off]
    simp only [if_true, if_false]
    norm_num [DRS_CONFIG.dragMultiplier]
    nlinarith
  · intro v cd hsp
    unfold effectiveDragForce
    rw [drsActiveCheck_slow true _ hsp, drsActiveCheck_slow false _ hsp]

/-- Witness for C7 at 250 km/h (625/9 m/s) with the dry drag coefficient. -/
theorem claim_c7_witness :
    effectiveDragForce (625 / 9) BASE_DRAG_COEFFICIENT true <
      effectiveDragForce (625 / 9) BASE_DRAG_COEFFICIENT false ∧
    effectiveDragForce 10 BASE_DRAG_COEFFICIENT true =
      effectiveDragForce 10 BASE_DRAG_COEFFICIENT false :=
  ⟨claim_c7_drs_drag.1 (625 / 9) BASE_DRAG_COEFFICIENT
      (by norm_num [MS_TO_KMH, DRS_CONFIG.activationSpeed])
      (by norm_num [getDragForce, AIR_DENSITY, FRONTAL_AREA, BASE_DRAG_COEFFICIENT]),
   claim_c7_drs_drag.2 10 BASE_DRAG_COEFFICIENT
      (by norm_num [MS_TO_KMH, DRS_CONFIG.activationSpeed])⟩

/-- C2, failing direction: with a braking (negative) longitudinal G of -1
the longitudinal transfer is negative, so the code takes load off the front
axle and adds it to the rear axle, the opposite of the claimed (and
commented) braking behavior. -/
theorem claim_c2_braking_shifts_load_rearward :
    longitudinalTransfer (-1) < 0 ∧
    frontLoad (CAR_MASS * 9.81) (-1) < frontBaseLoad (CAR_MASS * 9.81) ∧
    rearBaseLoad (CAR_MASS * 9.81) < rearLoad (CAR_MASS * 9.81) (-1) := by
  norm_num [longitudinalTransfer, frontLoad, rearLoad, frontBaseLoad, rearBaseLoad,
    CAR_MASS, CG_HEIGHT, WHEELBASE, WEIGHT_TRANSFER_LONG, WEIGHT_DIST_FRONT]

/-- C1: for every control input, every modifier bundle with a positive max
speed multiplier, every nonnegative reported frame delta and every finite
engine-reported state, the longitudinal target speed computed by the tick
lies within the scaled speed limits, and the yaw angular velocity written
back lies within the fixed angular velocity cap. -/
theorem claim_c1_output_clamped (ops : Ops) (wm : WeatherModifiers) (tg : ℚ)
    (onCurb : Bool) (cm : CurbModifiers) (ctl : ControlInput) (dt0 : ℚ)
    (spawn : Vec3) (px py pz : ℚ) (rot : Quat) (lvx lvy lvz avx avy avz : ℚ)
    (vs : VehState) (hm : 0 < wm.maxSpeedMultiplier) (hdt : 0 ≤ dt0)
    (hsqrt : ∀ q : ℚ, 0 ≤ q → 0 ≤ ops.sqrt q) :
    (-(BASE_MAX_REVERSE_SPEED * wm.maxSpeedMultiplier) ≤
        (tick ops wm tg onCurb cm ctl dt0 spawn
          (finiteES px py pz rot lvx lvy lvz avx avy avz) vs).newSpeed ∧
      (tick ops wm tg onCurb cm ctl dt0 spawn
          (finiteES px py pz rot lvx lvy lvz avx avy avz) vs).newSpeed ≤
        BASE_MAX_SPEED * wm.maxSpeedMultiplier) ∧
    -MAX_ANG_VEL ≤ (tick ops wm tg onCurb cm ctl dt0 spawn
        (finiteES px py pz rot lvx lvy lvz avx avy avz) vs).angvelCmd.y ∧
      (tick ops wm tg onCurb cm ctl dt0 spawn
        (finiteES px py pz rot lvx lvy lvz avx avy avz) vs).angvelCmd.y ≤
      MAX_ANG_VEL := by
  have hS : 0 < (composeCoeffs wm tg onCurb cm ops.pi).maxSpeed := by
    show 0 < BASE_MAX_SPEED * wm.maxSpeedMultiplier
    exact mul_pos (by norm_num [BASE_MAX_SPEED]) hm
  have hR : 0 < (composeCoeffs wm tg onCurb cm ops.pi).maxReverseSpeed := by
    show 0 < BASE_MAX_REVERSE_SPEED * wm.maxSpeedMultiplier
    exact mul_pos (by norm_num [BASE_MAX_REVERSE_SPEED]) hm
  have hdt0 : 0 ≤ clampDt dt0 := le_min hdt (by norm_num)
  have hdt1 : clampDt dt0 ≤ 0.05 := min_le_right _ _
  have hact : 0 ≤ ops.sqrt (lvx * lvx + lvz * lvz) :=
    hsqrt _ (by nlinarith [mul_self_nonneg lvx, mul_self_nonneg lvz])
  have he : tick ops wm tg onCurb cm ctl dt0 spawn
      (finiteES px py pz rot lvx lvy lvz avx avy avz) vs =
      tickMain ops wm tg onCurb cm ctl (clampDt dt0) ⟨px, py, pz⟩ rot
        ⟨lvx, lvy, lvz⟩ ⟨avx, avy, avz⟩ vs := rfl
  rw [he]
  unfold tickMain
  dsimp only
  refine ⟨?_, le_max_left _ _, max_le (by norm_num [MAX_ANG_VEL]) (min_le_left _ _)⟩
  exact updateSpeed_bounds _ _ _ _ _ _ _ _ hS hR hdt0 hdt1 hact

/-- Witness for C1 at the spawn state with a 16 ms frame. -/
theorem claim_c1_witness :
    (-(BASE_MAX_REVERSE_SPEED * cWm.maxSpeedMultiplier) ≤
        (tick cOps cWm 1 false cCm cCtl 0.016 cSpawn cEsRest initialVehState).newSpeed ∧
      (tick cOps cWm 1 false cCm cCtl 0.016 cSpawn cEsRest initialVehState).newSpeed ≤
        BASE_MAX_SPEED * cWm.maxSpeedMultiplier) ∧
    -MAX_ANG_VEL ≤
        (tick cOps cWm 1 false cCm cCtl 0.016 cSpawn cEsRest initialVehState).angvelCmd.y ∧
      (tick cOps cWm 1 false cCm cCtl 0.016 cSpawn cEsRest initialVehState).angvelCmd.y ≤
      MAX_ANG_VEL :=
  claim_c1_output_clamped cOps cWm 1 false cCm cCtl 0.016 cSpawn 0 1 0 ⟨0, 0, 0, 1⟩
    0 0 0 0 0 0 initialVehState (by norm_num [cWm]) (by norm_num)
    (fun q _ => le_refl 0)

/-- C4: whenever any engine-reported linear velocity, angular velocity or
position component is non-finite, the tick zeroes the written-back linear
and angular velocity, resets every smoothed internal quantity and the drift
flag, teleports to the spawn transform exactly when the position itself is
non-finite, leaves the steering angle and wheel rotations untouched, and
skips the rest of the tick (no telemetry is produced). -/
theorem claim_c4_stability_guard (ops : Ops) (wm : WeatherModifiers) (tg : ℚ)
    (onCurb : Bool) (cm : CurbModifiers) (ctl : ControlInput) (dt0 : ℚ)
    (spawn : Vec3) (es : EngineState) (vs : VehState)
    (h : (velocityIsInvalid es || angVelIsInvalid es || posIsInvalid es) = true) :
    tick ops wm tg onCurb cm ctl dt0 spawn es vs =
      { linvelCmd := ⟨0, 0, 0⟩
        angvelCmd := ⟨0, 0, 0⟩
        translationCmd := if posIsInvalid es then some spawn else none
        rotationCmd := if posIsInvalid es then some ⟨0, 0, 0, 1⟩ else none
        refs :=
          { currentSteer := vs.currentSteer
            wheelRots := vs.wheelRots
            smoothedSpeed := 0
            lateralG := 0
            longitudinalG := 0
            isDrifting := false
            smoothedVelX := 0
            smoothedVelZ := 0
            smoothedAngVel := 0
            smoothedSlipAngle := 0 }
        telemetry := none
        newSpeed := 0
        effectiveGrip := 0
        currentSpeed := 0
        telemetrySpeed := 0
        telemetryGear := 0
        dtUsed := clampDt dt0 } := by
  unfold tick
  dsimp only
  rw [if_pos h]
  rfl

/-- A corrupted engine state: the x component of the linear velocity is
non-finite, everything else is fine. -/
def cEsBadVel : EngineState :=
  ⟨⟨some 0, some 1, some 0⟩, ⟨0, 0, 0, 1⟩, ⟨none, some 3, some 4⟩,
    ⟨some 0, some 0, some 0⟩⟩

/-- Witness for C4 on a state with a non-finite linear velocity component. -/
theorem claim_c4_witness :
    tick cOps cWm 1 false cCm cCtl 0.016 cSpawn cEsBadVel initialVehState =
      { linvelCmd := ⟨0, 0, 0⟩
        angvelCmd := ⟨0, 0, 0⟩
        translationCmd := if posIsInvalid cEsBadVel then some cSpawn else none
        rotationCmd := if posIsInvalid cEsBadVel then some ⟨0, 0, 0, 1⟩ else none
        refs :=
          { currentSteer := initialVehState.currentSteer
            wheelRots := initialVehState.wheelRots
            smoothedSpeed := 0
            lateralG := 0
            longitudinalG := 0
            isDrifting := false
            smoothedVelX := 0
            smoothedVelZ := 0
            smoothedAngVel := 0
            smoothedSlipAngle := 0 }
        telemetry := none
        newSpeed := 0
        effectiveGrip := 0
        currentSpeed := 0
        telemetrySpeed := 0
        telemetryGear := 0
        dtUsed := clampDt 0.016 } :=
  claim_c4_stability_guard cOps cWm 1 false cCm cCtl 0.016 cSpawn cEsBadVel
    initialVehState (by decide)

/-- The reported gear combines the reverse test on the signed longitudinal
speed with the gear table applied to the nonnegative telemetry speed. -/
theorem telemetryGearSpec (cs sp : ℚ) (hsp : 0 ≤ sp) :
    ((if cs < -0.5 then (-1 : ℤ) else calculateGear sp) = -1 ↔ cs < -0.5) ∧
    (¬ cs < -0.5 →
      (if cs < -0.5 then (-1 : ℤ) else calculateGear sp) = calculateGear sp ∧
      1 ≤ (if cs < -0.5 then (-1 : ℤ) else calculateGear sp) ∧
      (if cs < -0.5 then (-1 : ℤ) else calculateGear sp) ≤ 7) := by
  by_cases h : cs < -0.5
  · rw [if_pos h]
    exact ⟨⟨fun _ => h, fun _ => rfl⟩, fun hc => absurd h hc⟩
  · rw [if_neg h]
    have h17 := calculateGear_range sp hsp
    refine ⟨⟨fun hg => ?_, fun hc => absurd hc h⟩, fun _ => ⟨rfl, h17.1, h17.2⟩⟩
    rw [hg] at h17
    omega

/-- C10: on every guarded tick with finite inputs the telemetry speed is a
nonnegative magnitude, the reported gear is -1 exactly when the signed
longitudinal speed is below -0.5 m/s, and otherwise the reported gear is the
value of the fixed speed band table, which lies in first through seventh
gear; so the reverse row of the table is never reached through the telemetry
speed. -/
theorem claim_c10_telemetry_gear (ops : Ops) (wm : WeatherModifiers) (tg : ℚ)
    (onCurb : Bool) (cm : CurbModifiers) (ctl : ControlInput) (dt0 : ℚ)
    (spawn : Vec3) (px py pz : ℚ) (rot : Quat) (lvx lvy lvz avx avy avz : ℚ)
    (vs : VehState)
    (hsqrt : ∀ q : ℚ, 0 ≤ q → 0 ≤ ops.sqrt q) :
    0 ≤ (tick ops wm tg onCurb cm ctl dt0 spawn
        (finiteES px py pz rot lvx lvy lvz avx avy avz) vs).telemetrySpeed ∧
    ((tick ops wm tg onCurb cm ctl dt0 spawn
        (finiteES px py pz rot lvx lvy lvz avx avy avz) vs).telemetryGear = -1 ↔
      (tick ops wm tg onCurb cm ctl dt0 spawn
        (finiteES px py pz rot lvx lvy lvz avx avy avz) vs).currentSpeed < -0.5) ∧
    (¬ (tick ops wm tg onCurb cm ctl dt0 spawn
          (finiteES px py pz rot lvx lvy lvz avx avy avz) vs).currentSpeed < -0.5 →
      (tick ops wm tg onCurb cm ctl dt0 spawn
          (finiteES px py pz rot lvx lvy lvz avx avy avz) vs).telemetryGear =
        calculateGear ((tick ops wm tg onCurb cm ctl dt0 spawn
          (finiteES px py pz rot lvx lvy lvz avx avy avz) vs).telemetrySpeed) ∧
      1 ≤ (tick ops wm tg onCurb cm ctl dt0 spawn
          (finiteES px py pz rot lvx lvy lvz avx avy avz) vs).telemetryGear ∧
      (tick ops wm tg onCurb cm ctl dt0 spawn
          (finiteES px py pz rot lvx lvy lvz avx avy avz) vs).telemetryGear ≤ 7) := by
  have he : tick ops wm tg onCurb cm ctl dt0 spawn
      (finiteES px py pz rot lvx lvy lvz avx avy avz) vs =
      tickMain ops wm tg onCurb cm ctl (clampDt dt0) ⟨px, py, pz⟩ rot
        ⟨lvx, lvy, lvz⟩ ⟨avx, avy, avz⟩ vs := rfl
  have hs : ∀ a b : ℚ, 0 ≤ ops.sqrt (a * a + b * b) := fun a b =>
    hsqrt _ (by nlinarith [mul_self_nonneg a, mul_self_nonneg b])
  rw [he]
  unfold tickMain
  dsimp only
  refine ⟨mul_nonneg (hs _ _) (by norm_num [MS_TO_KMH]), ?_, ?_⟩
  · exact (telemetryGearSpec _ _ (mul_nonneg (hs _ _) (by norm_num [MS_TO_KMH]))).1
  · exact (telemetryGearSpec _ _ (mul_nonneg (hs _ _) (by norm_num [MS_TO_KMH]))).2

/-- Witness for C10 at the spawn state. -/
theorem claim_c10_witness :
    0 ≤ (tick cOps cWm 1 false cCm cCtl 0.016 cSpawn cEsRest initialVehState).telemetrySpeed ∧
    ((tick cOps cWm 1 false cCm cCtl 0.016 cSpawn cEsRest initialVehState).telemetryGear = -1 ↔
      (tick cOps cWm 1 false cCm cCtl 0.016 cSpawn cEsRest initialVehState).currentSpeed < -0.5) ∧
    (¬ (tick cOps cWm 1 false cCm cCtl 0.016 cSpawn cEsRest initialVehState).currentSpeed < -0.5 →
      (tick cOps cWm 1 false cCm cCtl 0.016 cSpawn cEsRest initialVehState).telemetryGear =
        calculateGear ((tick cOps cWm 1 false cCm cCtl 0.016 cSpawn cEsRest
          initialVehState).telemetrySpeed) ∧
      1 ≤ (tick cOps cWm 1 false cCm cCtl 0.016 cSpawn cEsRest initialVehState).telemetryGear ∧
      (tick cOps cWm 1 false cCm cCtl 0.016 cSpawn cEsRest initialVehState).telemetryGear ≤ 7) :=
  claim_c10_telemetry_gear cOps cWm 1 false cCm cCtl 0.016 cSpawn 0 1 0 ⟨0, 0, 0, 1⟩
    0 0 0 0 0 0 initialVehState (fun _ _ => le_refl 0)

/-- The handbrake and throttle-oversteer reductions keep the rear grip
positive: both multipliers are positive. -/
theorem rearGripChain_pos (g hb tov : ℚ) (P Q : Prop) [Decidable P] [Decidable Q]
    (hg : 0 < g) (hhb : 0 < hb) (hto : 0 < tov) :
    0 < if P then (if Q then g * hb else g) * tov else (if Q then g * hb else g) := by
  have hinner : 0 < if Q then g * hb else g := by
    by_cases hq : Q
    · rw [if_pos hq]
      exact mul_pos hg hhb
    · rw [if_neg hq]
      exact hg
  by_cases hp : P
  · rw [if_pos hp]
    exact mul_pos hinner hto
  · rw [if_neg hp]
    exact hinner

/-- C6 (amended): with positive grip multipliers, a nonnegative downforce
multiplier and a smoothed lateral G small enough that the lateral transfer
penalty stays positive, the combined effective grip computed by the tick is
finite (automatic in exact arithmetic) and strictly positive; the 1.0
fallback is substituted only for a non-finite computation. -/
theorem claim_c6_effective_grip_pos (ops : Ops) (wm : WeatherModifiers) (tg : ℚ)
    (onCurb : Bool) (cm : CurbModifiers) (ctl : ControlInput) (dt0 : ℚ)
    (spawn : Vec3) (px py pz : ℚ) (rot : Quat) (lvx lvy lvz avx avy avz : ℚ)
    (vs : VehState)
    (hfm : 0 < wm.frictionSlipMultiplier) (htg : 0 < tg)
    (hcg : 0 < cm.gripMultiplier) (hdf : 0 ≤ wm.downforceMultiplier)
    (hlat : lateralTransfer vs.lateralG / (CAR_MASS * 9.81) * 0.15 < 1) :
    0 < (tick ops wm tg onCurb cm ctl dt0 spawn
        (finiteES px py pz rot lvx lvy lvz avx avy avz) vs).effectiveGrip ∧
    (∀ fb : ℚ, sanitizeNumber none fb = fb) := by
  have hcoTG : 0 < (composeCoeffs wm tg onCurb cm ops.pi).tireGrip := by
    show 0 < BASE_TIRE_GRIP_COEFFICIENT * wm.frictionSlipMultiplier * tg *
      (if onCurb then cm.gripMultiplier else 1.0)
    have hc : 0 < (if onCurb then cm.gripMultiplier else (1.0:ℚ)) := by
      split
      · exact hcg
      · norm_num
    exact mul_pos (mul_pos (mul_pos
      (by norm_num [BASE_TIRE_GRIP_COEFFICIENT]) hfm) htg) hc
  have hcoDF : 0 ≤ (composeCoeffs wm tg onCurb cm ops.pi).downforce := by
    show 0 ≤ BASE_DOWNFORCE_COEFFICIENT * wm.downforceMultiplier
    exact mul_nonneg (by norm_num [BASE_DOWNFORCE_COEFFICIENT]) hdf
  have he : tick ops wm tg onCurb cm ctl dt0 spawn
      (finiteES px py pz rot lvx lvy lvz avx avy avz) vs =
      tickMain ops wm tg onCurb cm ctl (clampDt dt0) ⟨px, py, pz⟩ rot
        ⟨lvx, lvy, lvz⟩ ⟨avx, avy, avz⟩ vs := rfl
  rw [he]
  unfold tickMain
  dsimp only
  refine ⟨?_, fun fb => rfl⟩
  apply combinedEffectiveGrip_pos
  · exact getTireGrip_pos _ _ _ hcoTG
  · exact rearGripChain_pos _ _ _ _ _ (getTireGrip_pos _ _ _ hcoTG)
      (by norm_num [DRIFT_CONFIG.handbrakeRearGripMultiplier])
      (by norm_num [DRIFT_CONFIG.throttleOversteerFactor])
  · exact effectiveDownforceVal_nonneg _ _ _ hcoDF
  · exact hlat

/-- Witness for C6 (amended) at the spawn state. -/
theorem claim_c6_witness :
    0 < (tick cOps cWm 1 false cCm cCtl 0.016 cSpawn cEsRest initialVehState).effectiveGrip ∧
    (∀ fb : ℚ, sanitizeNumber none fb = fb) :=
  claim_c6_effective_grip_pos cOps cWm 1 false cCm cCtl 0.016 cSpawn 0 1 0 ⟨0, 0, 0, 1⟩
    0 0 0 0 0 0 initialVehState (by norm_num [cWm]) (by norm_num)
    (by norm_num [cCm, CURB_PHYSICS.gripMultiplier]) (by norm_num [cWm])
    (by norm_num [initialVehState, lateralTransfer, CAR_MASS])

/-- One tick of finite but extreme engine-reported spin (a yaw rate of 1e9
rad/s at 100 m/s forward speed), starting from the spawn refs. -/
def c6EsSpin : EngineState := finiteES 0 1 0 ⟨0, 0, 0, 1⟩ 0 0 100 0 1000000000 0

/-- A calm finite engine state at 100 m/s forward speed. -/
def c6EsCalm : EngineState := finiteES 0 1 0 ⟨0, 0, 0, 1⟩ 0 0 100 0 0 0

/-- The refs after the extreme-spin tick: the smoothed lateral G is huge. -/
def c6MidState : VehState :=
  (tick cOps cWm 1 false cCm cCtl 0.01 cSpawn c6EsSpin initialVehState).refs

/-- Counterexample to C6 as stated: two ticks after spawn, with finite
engine-reported values throughout, the combined effective grip is negative
(the lateral transfer penalty went negative and the sanitizer only guards
non-finite values, not non-positive ones). -/
theorem claim_c6_counterexample :
    (tick cOps cWm 1 false cCm cCtl 0.01 cSpawn c6EsCalm c6MidState).effectiveGrip < 0 := by
  norm_num [tick, tickMain, c6MidState, c6EsSpin, c6EsCalm, cOps, cWm, cCm, cCtl, cSpawn,
    finiteES, initialVehState, clampDt, composeCoeffs, velocityIsInvalid, angVelIsInvalid,
    posIsInvalid, applyQuat, Vec3.dot, effectiveDragForce, effectiveDownforceVal,
    drsActiveCheck, getDragForce, getDownforce, lateralTransfer, frontLoad, rearLoad,
    frontBaseLoad, rearBaseLoad, longitudinalTransfer, getMaxSteerAngle, getTireGrip,
    driftStep, getEngineForce, engineForceMidBand, engineForceHighBand, engineForceTail,
    updateSpeed, sanitizeNumber, combinedEffectiveGrip, lerp, jsSign, calculateTurnDynamics,
    calculateGear, MS_TO_KMH, CAR_MASS, WHEELBASE, TRACK_WIDTH, CG_HEIGHT, WEIGHT_DIST_FRONT,
    BASE_MAX_SPEED, BASE_MAX_REVERSE_SPEED, ENGINE_FORCE_LOW, ENGINE_FORCE_MID,
    ENGINE_FORCE_HIGH, BASE_BRAKE_FORCE, ENGINE_BRAKE, BASE_DRAG_COEFFICIENT, FRONTAL_AREA,
    AIR_DENSITY, BASE_DOWNFORCE_COEFFICIENT, BASE_TIRE_GRIP_COEFFICIENT, OPTIMAL_SLIP_ANGLE,
    SLIP_ANGLE_FALLOFF, TIRE_LOAD_SENSITIVITY, BASE_MAX_STEER_ANGLE, BASE_MIN_STEER_ANGLE,
    BASE_STEER_SPEED, STEER_RETURN_SPEED, WEIGHT_TRANSFER_LONG, WEIGHT_TRANSFER_LAT,
    MAX_ANG_VEL, MAX_VELOCITY, DRS_CONFIG.activationSpeed, DRS_CONFIG.dragMultiplier,
    DRS_CONFIG.engineBoostLow, DRS_CONFIG.engineBoostHigh, DRS_CONFIG.boostStartSpeed,
    DRS_CONFIG.boostEndSpeed, DRS_CONFIG.downforceMultiplier,
    DRIFT_CONFIG.handbrakeRearGripMultiplier, DRIFT_CONFIG.driftEntrySlipAngle,
    DRIFT_CONFIG.driftExitSlipAngle, DRIFT_CONFIG.driftLateralCorrection,
    DRIFT_CONFIG.normalLateralCorrection, DRIFT_CONFIG.driftMaxAngularVelocity,
    DRIFT_CONFIG.normalMaxAngularVelocity, DRIFT_CONFIG.throttleOversteerFactor,
    DRIFT_CONFIG.minDriftSpeed, CURB_PHYSICS.minSpeedForEffect, abs_of_nonneg, abs_of_nonpos]

end Car
